import Mathlib

/-!
Verification of the capability-dispatch and result-aggregation engine of
MoviePilot (src/app/chain/__init__.py, class ChainBase).

The dynamic Python values that flow through the engine are embedded as the
inductive type `Val`; a provider invocation either returns a value or raises
an exception (`PResult`).  The dispatch loop of `ChainBase.__run_module`
is embedded as `run_go`, which additionally counts how many providers were
actually invoked, so that short-circuit claims (a provider is never called)
are expressible.
-/

/-- Embedding of the Python values the engine inspects: the `None` sentinel,
strings, numbers, tuples and lists.  Tuples and lists are kept distinct
because `__run_module` treats them differently (`isinstance(ret, tuple)`
vs `isinstance(result, list)`). -/
inductive Val : Type where
  | none : Val
  | str : String → Val
  | nat : Nat → Val
  | tup : List Val → Val
  | list : List Val → Val

/-- `v is None` in Python: true exactly for the `None` sentinel. -/
def isNoneV : Val → Bool
  | Val.none => true
  | _ => false

/-- `isinstance(v, list)` in Python. -/
def isListV : Val → Bool
  | Val.list _ => true
  | _ => false

/-- Outcome of one provider invocation: a returned value, or a raised
exception (which `__run_module` catches and logs). -/
inductive PResult : Type where
  | ok : Val → PResult
  | exn : PResult

/-- Embedding of the closure `is_result_empty(ret)` defined inside
`ChainBase.__run_module` (src/app/chain/__init__.py lines 35-42).  The
Python closure captures the enclosing variable `result`: its non-tuple
branch tests `result is None`, not `ret is None`, so the embedding takes
both the captured `result` and the argument `ret`.  In the dispatch loop it
is only ever called as `is_result_empty(result)`, i.e. with `ret = result`. -/
def is_result_empty (result ret : Val) : Bool :=
  match ret with
  | Val.tup vs => vs.all (fun v => isNoneV v)
  | _ => isNoneV result

/-- Embedding of the `for module in modules` loop of
`ChainBase.__run_module` (src/app/chain/__init__.py lines 45-63).  Each
provider is represented by the outcome of invoking its capability method
with the dispatch arguments.  Returns the final `result` together with the
number of providers whose method was actually invoked (the loop invokes a
prefix of the list: it walks providers in order and `break` stops it).

  - If `is_result_empty(result)` holds, the provider is invoked and its
    return value overwrites `result`; an exception is caught and leaves
    `result` unchanged.
  - Otherwise, if `result` is a list, the provider is invoked and a list
    return is concatenated onto `result` (`result.extend(temp)`); any
    non-list return, and any exception, leaves `result` unchanged.
  - Otherwise (`result` non-empty and not a list) the loop breaks before
    invoking the provider. -/
def run_go : List PResult → Val → Val × Nat
  | [], result => (result, 0)
  | m :: ms, result =>
    if is_result_empty result result then
      let next :=
        match m with
        | PResult.ok v => v
        | PResult.exn => result
      let p := run_go ms next
      (p.1, p.2 + 1)
    else
      match result with
      | Val.list l =>
        let next :=
          match m with
          | PResult.ok (Val.list t) => Val.list (l ++ t)
          | _ => Val.list l
        let p := run_go ms next
        (p.1, p.2 + 1)
      | _ => (result, 0)

/-- `ChainBase.__run_module` restricted to one dispatch: `result` starts as
`None` and the loop of `run_go` processes the providers returned by the
registry, in order.  The engine itself never raises: the value is total. -/
def run_module_core (mods : List PResult) : Val :=
  (run_go mods Val.none).1

/-- Number of providers whose capability method is invoked during the
dispatch (providers are invoked in order, so these are exactly the first
`invoked_count mods` entries of the registry list). -/
def invoked_count (mods : List PResult) : Nat :=
  (run_go mods Val.none).2

/-- The Capability Registry collaborator: `get_modules(method)` yields the
ordered providers for a capability, each represented by its behaviour on a
keyword-argument mapping. -/
structure ModuleManager : Type where
  get_modules : String → List (List (String × Val) → PResult)

/-- State of `ChainBase`: it holds the module manager (the event manager is
never used by dispatch and is omitted). -/
structure ChainBase : Type where
  modulemanager : ModuleManager

/-- `ChainBase.__run_module(method, **kwargs)`: fetch the providers for the
capability from the registry and run the aggregation loop over their
invocations with the given keyword arguments. -/
def run_module (c : ChainBase) (method : String) (kwargs : List (String × Val)) : Val :=
  run_module_core ((c.modulemanager.get_modules method).map (fun f => f kwargs))

/-- Facade `ChainBase.prepare_recognize(title, subtitle)`. -/
def prepare_recognize (c : ChainBase) (title subtitle : Val) : Val :=
  run_module c "prepare_recognize" [("title", title), ("subtitle", subtitle)]

/-- Facade `ChainBase.recognize_media(meta, mtype, tmdbid)`. -/
def recognize_media (c : ChainBase) (meta mtype tmdbid : Val) : Val :=
  run_module c "recognize_media" [("meta", meta), ("mtype", mtype), ("tmdbid", tmdbid)]

/-- Facade `ChainBase.obtain_image(mediainfo)`. -/
def obtain_image (c : ChainBase) (mediainfo : Val) : Val :=
  run_module c "obtain_image" [("mediainfo", mediainfo)]

/-- Facade `ChainBase.douban_info(doubanid)`. -/
def douban_info (c : ChainBase) (doubanid : Val) : Val :=
  run_module c "douban_info" [("doubanid", doubanid)]

/-- Facade `ChainBase.tvdb_info(tvdbid)`. -/
def tvdb_info (c : ChainBase) (tvdbid : Val) : Val :=
  run_module c "tvdb_info" [("tvdbid", tvdbid)]

/-- Facade `ChainBase.tmdb_info(tmdbid, mtype)`. -/
def tmdb_info (c : ChainBase) (tmdbid mtype : Val) : Val :=
  run_module c "tmdb_info" [("tmdbid", tmdbid), ("mtype", mtype)]

/-- Facade for the message-parsing capability of ChainBase (named after
its capability string; the Python method bears the capability name). -/
def messageParser (c : ChainBase) (body form args : Val) : Val :=
  run_module c "message_parser" [("body", body), ("form", form), ("args", args)]

/-- Facade for the webhook-parsing capability of ChainBase (named after
its capability string; the Python method bears the capability name). -/
def webhookParser (c : ChainBase) (body form args : Val) : Val :=
  run_module c "webhook_parser" [("body", body), ("form", form), ("args", args)]

/-- Facade `ChainBase.search_medias(meta)`. -/
def search_medias (c : ChainBase) (meta : Val) : Val :=
  run_module c "search_medias" [("meta", meta)]

/-- Facade `ChainBase.search_torrents(mediainfo, sites, keyword)`. -/
def search_torrents (c : ChainBase) (mediainfo sites keyword : Val) : Val :=
  run_module c "search_torrents" [("mediainfo", mediainfo), ("sites", sites), ("keyword", keyword)]

/-- Facade `ChainBase.refresh_torrents(sites)`. -/
def refresh_torrents (c : ChainBase) (sites : Val) : Val :=
  run_module c "refresh_torrents" [("sites", sites)]

/-- Facade `ChainBase.filter_torrents(torrent_list, season_episodes)`. -/
def filter_torrents (c : ChainBase) (torrent_list season_episodes : Val) : Val :=
  run_module c "filter_torrents"
    [("torrent_list", torrent_list), ("season_episodes", season_episodes)]

/-- Facade `ChainBase.download(torrent_path, cookie, episodes)`. -/
def download (c : ChainBase) (torrent_path cookie episodes : Val) : Val :=
  run_module c "download"
    [("torrent_path", torrent_path), ("cookie", cookie), ("episodes", episodes)]

/-- Facade `ChainBase.download_added(context, torrent_path)`. -/
def download_added (c : ChainBase) (context torrent_path : Val) : Val :=
  run_module c "download_added" [("context", context), ("torrent_path", torrent_path)]

/-- Facade `ChainBase.list_torrents(status, hashs)`. -/
def list_torrents (c : ChainBase) (status hashs : Val) : Val :=
  run_module c "list_torrents" [("status", status), ("hashs", hashs)]

/-- Facade `ChainBase.transfer(path, mediainfo)`. -/
def transfer (c : ChainBase) (path mediainfo : Val) : Val :=
  run_module c "transfer" [("path", path), ("mediainfo", mediainfo)]

/-- Facade `ChainBase.transfer_completed(hashs, transinfo)`. -/
def transfer_completed (c : ChainBase) (hashs transinfo : Val) : Val :=
  run_module c "transfer_completed" [("hashs", hashs), ("transinfo", transinfo)]

/-- Facade `ChainBase.remove_torrents(hashs)`. -/
def remove_torrents (c : ChainBase) (hashs : Val) : Val :=
  run_module c "remove_torrents" [("hashs", hashs)]

/-- Facade `ChainBase.media_exists(mediainfo)`. -/
def media_exists (c : ChainBase) (mediainfo : Val) : Val :=
  run_module c "media_exists" [("mediainfo", mediainfo)]

/-- Facade `ChainBase.refresh_mediaserver(mediainfo, file_path)`. -/
def refresh_mediaserver (c : ChainBase) (mediainfo file_path : Val) : Val :=
  run_module c "refresh_mediaserver" [("mediainfo", mediainfo), ("file_path", file_path)]

/-- Facade `ChainBase.post_message(title, text, image, userid)`. -/
def post_message (c : ChainBase) (title text image userid : Val) : Val :=
  run_module c "post_message"
    [("title", title), ("text", text), ("image", image), ("userid", userid)]

/-- Facade `ChainBase.post_medias_message(title, items, userid)`. -/
def post_medias_message (c : ChainBase) (title items userid : Val) : Val :=
  run_module c "post_medias_message" [("title", title), ("items", items), ("userid", userid)]

/-- Facade `ChainBase.post_torrents_message(title, items, mediainfo, userid)`.
The source passes the keyword arguments in the order title, mediainfo,
items, userid; the mapping is the same set as the method parameters. -/
def post_torrents_message (c : ChainBase) (title items mediainfo userid : Val) : Val :=
  run_module c "post_torrents_message"
    [("title", title), ("mediainfo", mediainfo), ("items", items), ("userid", userid)]

/-- Facade `ChainBase.scrape_metadata(path, mediainfo)`. -/
def scrape_metadata (c : ChainBase) (path mediainfo : Val) : Val :=
  run_module c "scrape_metadata" [("path", path), ("mediainfo", mediainfo)]

/-- Facade `ChainBase.register_commands(commands)`. -/
def register_commands (c : ChainBase) (commands : Val) : Val :=
  run_module c "register_commands" [("commands", commands)]

/-- Facade `ChainBase.douban_discover(mtype, sort, tags, start, count)`. -/
def douban_discover (c : ChainBase) (mtype sort tags start count : Val) : Val :=
  run_module c "douban_discover"
    [("mtype", mtype), ("sort", sort), ("tags", tags), ("start", start), ("count", count)]

/-- Facade `ChainBase.tmdb_discover(mtype, sort_by, with_genres,
with_original_language, page)`. -/
def tmdb_discover (c : ChainBase) (mtype sort_by with_genres with_original_language page : Val) :
    Val :=
  run_module c "tmdb_discover"
    [("mtype", mtype), ("sort_by", sort_by), ("with_genres", with_genres),
      ("with_original_language", with_original_language), ("page", page)]

/-- Facade `ChainBase.movie_top250(page, count)`. -/
def movie_top250 (c : ChainBase) (page count : Val) : Val :=
  run_module c "movie_top250" [("page", page), ("count", count)]

/-- Helper: a list-shaped aggregate is never empty (the non-tuple branch of
the emptiness closure checks `result is None`, and a list is not `None`). -/
theorem list_not_empty (l : List Val) :
    is_result_empty (Val.list l) (Val.list l) = false := rfl

/-- Helper: once `result` is non-empty and not a list, the loop breaks at
once, returning `result` and invoking no further provider. -/
theorem scalar_break (ms : List PResult) (r : Val)
    (h1 : is_result_empty r r = false) (h2 : isListV r = false) :
    run_go ms r = (r, 0) := by
  cases ms with
  | nil => rfl
  | cons m ms =>
    cases r with
    | none => simp [is_result_empty, isNoneV] at h1
    | str s => simp [run_go, is_result_empty, isNoneV]
    | nat n => simp [run_go, is_result_empty, isNoneV]
    | tup vs =>
        simp only [run_go, h1, if_false, Bool.false_eq_true]
    | list l => simp [isListV] at h2

/-- Claim C1: first-wins scalar policy with short-circuit.  With providers
P1 returning absent, P2 returning the scalar "X" and P3 returning "Y",
dispatch returns "X" and only the first two providers are invoked (P3
never is); in general, once the aggregate is a non-absent, non-sequence
value, the loop stops and no further provider is invoked. -/
theorem chain_first_wins_scalar (ms : List PResult) (r : Val)
    (h1 : is_result_empty r r = false) (h2 : isListV r = false) :
    run_module_core [PResult.ok Val.none, PResult.ok (Val.str "X"), PResult.ok (Val.str "Y")]
        = Val.str "X"
    ∧ invoked_count [PResult.ok Val.none, PResult.ok (Val.str "X"), PResult.ok (Val.str "Y")]
        = 2
    ∧ run_go ms r = (r, 0) :=
  ⟨rfl, rfl, scalar_break ms r h1 h2⟩

/-- Witness for C1 at concrete inputs. -/
theorem chain_first_wins_scalar_witness :
    run_go [PResult.ok (Val.str "Y")] (Val.str "Z") = (Val.str "Z", 0) :=
  (chain_first_wins_scalar [PResult.ok (Val.str "Y")] (Val.str "Z") rfl rfl).2.2

/-- Helper: `isNoneV` tests equality with the `None` sentinel. -/
theorem isNoneV_eq (v : Val) : isNoneV v = true ↔ v = Val.none := by
  cases v <;> simp [isNoneV]

/-- Helper: when the aggregate is a list and the provider returns a list,
the provider is invoked and its elements are concatenated onto the
aggregate, after which the loop continues. -/
theorem list_step_list (t : List Val) (ms : List PResult) (l : List Val) :
    run_go (PResult.ok (Val.list t) :: ms) (Val.list l)
      = ((run_go ms (Val.list (l ++ t))).1, (run_go ms (Val.list (l ++ t))).2 + 1) := by
  simp [run_go, is_result_empty, isNoneV]

/-- Helper: when the aggregate is a list and the provider returns a
non-list value (the absent sentinel included), the provider is invoked but
its result is discarded, and the loop continues with the aggregate
unchanged. -/
theorem list_step_drop (v : Val) (h : isListV v = false) (ms : List PResult) (l : List Val) :
    run_go (PResult.ok v :: ms) (Val.list l)
      = ((run_go ms (Val.list l)).1, (run_go ms (Val.list l)).2 + 1) := by
  cases v <;> simp_all [run_go, is_result_empty, isNoneV, isListV]

/-- Claim C2: accumulation policy.  With providers P1→[1,2], P2→[3],
P3→absent, P4→[4] the dispatch returns [1,2,3,4] and all four providers
are invoked; in general, a list aggregate keeps the chain running: a later
list result is concatenated in invocation order preserving element order,
and an absent result is simply dropped without stopping the chain. -/
theorem chain_accumulation :
    run_module_core [PResult.ok (Val.list [Val.nat 1, Val.nat 2]),
        PResult.ok (Val.list [Val.nat 3]), PResult.ok Val.none,
        PResult.ok (Val.list [Val.nat 4])]
      = Val.list [Val.nat 1, Val.nat 2, Val.nat 3, Val.nat 4]
    ∧ invoked_count [PResult.ok (Val.list [Val.nat 1, Val.nat 2]),
        PResult.ok (Val.list [Val.nat 3]), PResult.ok Val.none,
        PResult.ok (Val.list [Val.nat 4])]
      = 4
    ∧ (∀ (t : List Val) (ms : List PResult) (l : List Val),
        run_go (PResult.ok (Val.list t) :: ms) (Val.list l)
          = ((run_go ms (Val.list (l ++ t))).1, (run_go ms (Val.list (l ++ t))).2 + 1))
    ∧ (∀ (ms : List PResult) (l : List Val),
        run_go (PResult.ok Val.none :: ms) (Val.list l)
          = ((run_go ms (Val.list l)).1, (run_go ms (Val.list l)).2 + 1)) :=
  ⟨rfl, rfl, list_step_list, fun ms l => list_step_drop Val.none rfl ms l⟩

/-- Claim C3: fault isolation.  A provider invocation that raises leaves
the aggregate unchanged and the dispatch continues with the remaining
providers (the hypothesis states the aggregate is in a state where the
provider is invoked at all: absent-shaped or a list); concretely, with P1
raising and P2→"X", dispatch returns "X".  The engine itself is total
(`run_module_core` always returns a `Val`), so no exception reaches the
caller. -/
theorem chain_fault_isolation (ms : List PResult) (r : Val)
    (h : is_result_empty r r = true ∨ isListV r = true) :
    run_module_core [PResult.exn, PResult.ok (Val.str "X")] = Val.str "X"
    ∧ run_go (PResult.exn :: ms) r = ((run_go ms r).1, (run_go ms r).2 + 1) := by
  refine ⟨rfl, ?_⟩
  rcases h with h | h
  · simp [run_go, h]
  · cases r <;> simp_all [run_go, is_result_empty, isNoneV, isListV]

/-- Witness for C3 at concrete inputs. -/
theorem chain_fault_isolation_witness :
    run_module_core [PResult.exn, PResult.ok (Val.str "X")] = Val.str "X"
    ∧ run_go [PResult.exn] Val.none = ((run_go [] Val.none).1, (run_go [] Val.none).2 + 1) :=
  chain_fault_isolation [] Val.none (Or.inl rfl)

/-- Claim C4: mixed-shape drop.  With providers P1→[1,2], P2→"scalar",
P3→[3], P2's non-sequence result is discarded without stopping iteration
(the aggregate is already a sequence, so the terminal short-circuit does
not apply), P3 is still invoked and appends, and dispatch returns [1,2,3];
in general a non-list provider result leaves a list aggregate unchanged
and the loop continues. -/
theorem chain_mixed_shape_drop (v : Val) (ms : List PResult) (l : List Val)
    (h : isListV v = false) :
    run_module_core [PResult.ok (Val.list [Val.nat 1, Val.nat 2]),
        PResult.ok (Val.str "scalar"), PResult.ok (Val.list [Val.nat 3])]
      = Val.list [Val.nat 1, Val.nat 2, Val.nat 3]
    ∧ invoked_count [PResult.ok (Val.list [Val.nat 1, Val.nat 2]),
        PResult.ok (Val.str "scalar"), PResult.ok (Val.list [Val.nat 3])]
      = 3
    ∧ run_go (PResult.ok v :: ms) (Val.list l)
        = ((run_go ms (Val.list l)).1, (run_go ms (Val.list l)).2 + 1) :=
  ⟨rfl, rfl, list_step_drop v h ms l⟩

/-- Witness for C4 at concrete inputs. -/
theorem chain_mixed_shape_drop_witness :
    run_go [PResult.ok (Val.str "s")] (Val.list [])
      = ((run_go [] (Val.list [])).1, (run_go [] (Val.list [])).2 + 1) :=
  (chain_mixed_shape_drop (Val.str "s") [] [] rfl).2.2

/-- Claim C5: tuple-emptiness rule.  As called by the loop (with the
closure argument equal to the captured `result`), a value counts as absent
exactly when it is the `None` sentinel or a tuple all of whose elements are
`None`; consequently after a provider returns (None, None) the next
provider is still invoked (here it contributes "Z"), while after a provider
returns (None, "y") the aggregate is non-absent and non-sequence, so the
chain short-circuits with only that one provider invoked. -/
theorem chain_tuple_emptiness (r : Val) :
    (is_result_empty r r = true
      ↔ (r = Val.none ∨ ∃ vs, r = Val.tup vs ∧ ∀ v ∈ vs, v = Val.none))
    ∧ run_module_core [PResult.ok (Val.tup [Val.none, Val.none]), PResult.ok (Val.str "Z")]
        = Val.str "Z"
    ∧ invoked_count [PResult.ok (Val.tup [Val.none, Val.none]), PResult.ok (Val.str "Z")]
        = 2
    ∧ run_module_core [PResult.ok (Val.tup [Val.none, Val.str "y"]), PResult.ok (Val.str "Z")]
        = Val.tup [Val.none, Val.str "y"]
    ∧ invoked_count [PResult.ok (Val.tup [Val.none, Val.str "y"]), PResult.ok (Val.str "Z")]
        = 1 := by
  refine ⟨?_, rfl, rfl, rfl, rfl⟩
  cases r with
  | none => simp [is_result_empty, isNoneV]
  | str s => simp [is_result_empty, isNoneV]
  | nat n => simp [is_result_empty, isNoneV]
  | list l => simp [is_result_empty, isNoneV]
  | tup vs =>
      simp only [is_result_empty, List.all_eq_true]
      constructor
      · intro h
        exact Or.inr ⟨vs, rfl, fun v hv => (isNoneV_eq v).1 (h v hv)⟩
      · rintro (h | ⟨vs2, h2, h3⟩)
        · exact absurd h (by simp)
        · intro v hv
          cases h2
          exact (isNoneV_eq v).2 (h3 v hv)

/-- Helper: when the aggregate is absent-shaped, the provider is invoked
and its returned value overwrites the aggregate, after which the loop
continues. -/
theorem empty_step (v : Val) (ms : List PResult) (r : Val)
    (h : is_result_empty r r = true) :
    run_go (PResult.ok v :: ms) r = ((run_go ms v).1, (run_go ms v).2 + 1) := by
  simp [run_go, h]

/-- Helper: when the aggregate is a list and the provider raises, the
exception is caught and the loop continues with the aggregate unchanged. -/
theorem list_step_exn (ms : List PResult) (l : List Val) :
    run_go (PResult.exn :: ms) (Val.list l)
      = ((run_go ms (Val.list l)).1, (run_go ms (Val.list l)).2 + 1) := by
  simp [run_go, is_result_empty, isNoneV]

/-- Helper: one loop step on a list aggregate always continues, extending
the aggregate by some (possibly empty) suffix. -/
theorem list_step (m : PResult) (ms : List PResult) (l : List Val) :
    ∃ t, run_go (m :: ms) (Val.list l)
      = ((run_go ms (Val.list (l ++ t))).1, (run_go ms (Val.list (l ++ t))).2 + 1) := by
  cases m with
  | exn => exact ⟨[], by simpa using list_step_exn ms l⟩
  | ok v =>
      cases v with
      | list t => exact ⟨t, list_step_list t ms l⟩
      | none => exact ⟨[], by simpa using list_step_drop Val.none rfl ms l⟩
      | str s => exact ⟨[], by simpa using list_step_drop (Val.str s) rfl ms l⟩
      | nat n => exact ⟨[], by simpa using list_step_drop (Val.nat n) rfl ms l⟩
      | tup vs => exact ⟨[], by simpa using list_step_drop (Val.tup vs) rfl ms l⟩

/-- Helper: a list aggregate stays a list for the rest of the dispatch and
only ever gains elements: the final result extends it on the right. -/
theorem list_persists (ms : List PResult) (l : List Val) :
    ∃ ext, (run_go ms (Val.list l)).1 = Val.list (l ++ ext) := by
  induction ms generalizing l with
  | nil => exact ⟨[], by simp [run_go]⟩
  | cons m ms ih =>
      obtain ⟨t, ht⟩ := list_step m ms l
      obtain ⟨ext, hext⟩ := ih (l ++ t)
      refine ⟨t ++ ext, ?_⟩
      rw [ht]
      simpa [List.append_assoc] using hext

/-- Helper: when every provider raises, the aggregate never changes from
the `None` sentinel and every provider is invoked. -/
theorem all_exn_go (mods : List PResult) (h : ∀ m ∈ mods, m = PResult.exn) :
    run_go mods Val.none = (Val.none, mods.length) := by
  induction mods with
  | nil => rfl
  | cons m ms ih =>
      have hm : m = PResult.exn := h m (by simp)
      subst hm
      have hrec := ih (fun x hx => h x (by simp [hx]))
      simp [run_go, is_result_empty, isNoneV, hrec]

/-- Helper: when every provider returns an absent-shaped value, the
aggregate stays absent-shaped through the whole dispatch. -/
theorem all_empty_go (mods : List PResult) :
    ∀ r, (∀ m ∈ mods, ∃ v, m = PResult.ok v ∧ is_result_empty v v = true) →
      is_result_empty r r = true →
      is_result_empty (run_go mods r).1 (run_go mods r).1 = true := by
  induction mods with
  | nil => intro r _ hr; simpa [run_go] using hr
  | cons m ms ih =>
      intro r h hr
      obtain ⟨v, hm, hv⟩ := h m (by simp)
      subst hm
      rw [empty_step v ms r hr]
      exact ih v (fun x hx => h x (by simp [hx])) hv

/-- Helper: when every provider before the last returns an absent-shaped
value, the last provider's returned value is the final result. -/
theorem last_value_go (mods : List PResult) (v : Val) :
    ∀ r, (∀ m ∈ mods, ∃ w, m = PResult.ok w ∧ is_result_empty w w = true) →
      is_result_empty r r = true →
      (run_go (mods ++ [PResult.ok v]) r).1 = v := by
  induction mods with
  | nil =>
      intro r _ hr
      rw [List.nil_append, empty_step v [] r hr]
      rfl
  | cons m ms ih =>
      intro r h hr
      obtain ⟨w, hm, hw⟩ := h m (by simp)
      subst hm
      rw [List.cons_append, empty_step w (ms ++ [PResult.ok v]) r hr]
      exact ih w (fun x hx => h x (by simp [hx])) hw

/-- Counterexample to claim C6 as stated: the three empty cases are not
always indistinguishable from the returned value.  A single provider that
legitimately returns the absent-shaped tuple (None, None) makes dispatch
return that tuple, while an empty registry returns the `None` sentinel —
two different values, though both are absent-shaped. -/
theorem chain_empty_result_counterexample :
    run_module_core [PResult.ok (Val.tup [Val.none, Val.none])] ≠ run_module_core []
    ∧ is_result_empty (run_module_core [PResult.ok (Val.tup [Val.none, Val.none])])
        (run_module_core [PResult.ok (Val.tup [Val.none, Val.none])]) = true := by
  constructor
  · intro h
    exact Val.noConfusion h
  · rfl

/-- Claim C6 (amended): dispatch raises no error and returns an
absent-shaped result in all three cases — empty registry (returning the
`None` sentinel and invoking nothing), every provider raising (returning
the `None` sentinel), and every provider returning an absent-shaped value
(returning the last such value, which satisfies the emptiness test but may
be a tuple of Nones and hence differ from the sentinel). -/
theorem chain_empty_result_amended (mods1 mods2 : List PResult)
    (h1 : ∀ m ∈ mods1, m = PResult.exn)
    (h2 : ∀ m ∈ mods2, ∃ v, m = PResult.ok v ∧ is_result_empty v v = true) :
    run_module_core [] = Val.none
    ∧ invoked_count [] = 0
    ∧ run_module_core mods1 = Val.none
    ∧ is_result_empty (run_module_core mods2) (run_module_core mods2) = true := by
  refine ⟨rfl, rfl, ?_, ?_⟩
  · show (run_go mods1 Val.none).1 = Val.none
    rw [all_exn_go mods1 h1]
  · exact all_empty_go mods2 Val.none h2 rfl

/-- Witness for the amended C6 at concrete inputs. -/
theorem chain_empty_result_amended_witness :
    run_module_core [] = Val.none
    ∧ invoked_count [] = 0
    ∧ run_module_core [PResult.exn] = Val.none
    ∧ is_result_empty (run_module_core [PResult.ok (Val.tup [Val.none])])
        (run_module_core [PResult.ok (Val.tup [Val.none])]) = true :=
  chain_empty_result_amended [PResult.exn] [PResult.ok (Val.tup [Val.none])]
    (by intro m hm; simp at hm; exact hm)
    (by intro m hm; simp at hm; exact ⟨Val.tup [Val.none], hm, rfl⟩)

/-- Claim C7: shape-fixing invariant.  While the aggregate is
absent-shaped, the next provider's value overwrites it (so the first
non-absent contribution fixes the shape); once the aggregate is a
sequence it stays a sequence and only gains elements for the rest of the
dispatch; and once it is a non-absent scalar the loop stops and returns it
unchanged, with no later provider invoked. -/
theorem chain_shape_fixing (v : Val) (ms0 ms1 ms2 : List PResult)
    (l : List Val) (r0 r2 : Val)
    (h0 : is_result_empty r0 r0 = true)
    (h1 : is_result_empty r2 r2 = false) (h2 : isListV r2 = false) :
    run_go (PResult.ok v :: ms0) r0 = ((run_go ms0 v).1, (run_go ms0 v).2 + 1)
    ∧ (∃ ext, (run_go ms1 (Val.list l)).1 = Val.list (l ++ ext))
    ∧ run_go ms2 r2 = (r2, 0) :=
  ⟨empty_step v ms0 r0 h0, list_persists ms1 l, scalar_break ms2 r2 h1 h2⟩

/-- Witness for C7 at concrete inputs. -/
theorem chain_shape_fixing_witness :
    run_go [PResult.ok (Val.str "v"), PResult.exn] Val.none
      = ((run_go [PResult.exn] (Val.str "v")).1, (run_go [PResult.exn] (Val.str "v")).2 + 1)
    ∧ (∃ ext, (run_go [PResult.ok Val.none] (Val.list [Val.nat 1])).1
        = Val.list ([Val.nat 1] ++ ext))
    ∧ run_go [PResult.ok (Val.str "w")] (Val.str "v") = (Val.str "v", 0) :=
  chain_shape_fixing (Val.str "v") [PResult.exn] [PResult.ok Val.none]
    [PResult.ok (Val.str "w")] [Val.nat 1] Val.none (Val.str "v") rfl rfl rfl

/-- Claim C9: the empty list is a non-absent contribution.  `[]` is not a
tuple, so the emptiness closure tests `result is None` and answers false;
hence a provider returning `[]` fixes the aggregate shape to sequence,
later list results are appended ([] then [5] yields [5]), and a later
scalar is dropped without replacing the aggregate or short-circuiting
before invocation (all three providers are invoked). -/
theorem chain_empty_list_nonabsent :
    is_result_empty (Val.list []) (Val.list []) = false
    ∧ run_module_core [PResult.ok (Val.list []), PResult.ok (Val.list [Val.nat 5])]
        = Val.list [Val.nat 5]
    ∧ invoked_count [PResult.ok (Val.list []), PResult.ok (Val.list [Val.nat 5])] = 2
    ∧ run_module_core [PResult.ok (Val.list []), PResult.ok (Val.str "s"),
        PResult.ok (Val.list [Val.nat 5])] = Val.list [Val.nat 5]
    ∧ invoked_count [PResult.ok (Val.list []), PResult.ok (Val.str "s"),
        PResult.ok (Val.list [Val.nat 5])] = 3 :=
  ⟨rfl, rfl, rfl, rfl, rfl⟩

/-- Claim C10: last absent value wins when nothing contributes.  While the
aggregate is absent-shaped each provider's return value overwrites the
previous one, so when every provider succeeds with an absent-shaped value
the dispatch returns the last provider's value; in particular two
providers both returning (None, None) yield (None, None), which is not the
`None` sentinel. -/
theorem chain_last_absent_wins (mods : List PResult) (v : Val)
    (h : ∀ m ∈ mods, ∃ w, m = PResult.ok w ∧ is_result_empty w w = true)
    (hv : is_result_empty v v = true) :
    run_module_core (mods ++ [PResult.ok v]) = v
    ∧ run_module_core [PResult.ok (Val.tup [Val.none, Val.none]),
        PResult.ok (Val.tup [Val.none, Val.none])]
      = Val.tup [Val.none, Val.none]
    ∧ Val.tup [Val.none, Val.none] ≠ Val.none := by
  refine ⟨last_value_go mods v Val.none h rfl, rfl, ?_⟩
  intro hc
  exact Val.noConfusion hc

/-- Witness for C10 at concrete inputs. -/
theorem chain_last_absent_wins_witness :
    run_module_core ([PResult.ok (Val.tup [Val.none, Val.none])]
        ++ [PResult.ok (Val.tup [Val.none, Val.none])])
      = Val.tup [Val.none, Val.none]
    ∧ run_module_core [PResult.ok (Val.tup [Val.none, Val.none]),
        PResult.ok (Val.tup [Val.none, Val.none])]
      = Val.tup [Val.none, Val.none]
    ∧ Val.tup [Val.none, Val.none] ≠ Val.none :=
  chain_last_absent_wins [PResult.ok (Val.tup [Val.none, Val.none])]
    (Val.tup [Val.none, Val.none])
    (by intro m hm; simp at hm; exact ⟨Val.tup [Val.none, Val.none], hm, rfl⟩)
    rfl

/-- Claim C8: facade forwarding.  Every public facade method of ChainBase
returns exactly the result of the dispatch primitive invoked with a
capability name equal to the method name and the keyword arguments the
source passes (the same set as the method parameters), with no merge,
filtering or error-handling logic of its own. -/
theorem chain_facade_forwarding (c : ChainBase) :
    (∀ title subtitle : Val, prepare_recognize c title subtitle
      = run_module c "prepare_recognize" [("title", title), ("subtitle", subtitle)])
    ∧ (∀ meta mtype tmdbid : Val, recognize_media c meta mtype tmdbid
      = run_module c "recognize_media" [("meta", meta), ("mtype", mtype), ("tmdbid", tmdbid)])
    ∧ (∀ mediainfo : Val, obtain_image c mediainfo
      = run_module c "obtain_image" [("mediainfo", mediainfo)])
    ∧ (∀ doubanid : Val, douban_info c doubanid
      = run_module c "douban_info" [("doubanid", doubanid)])
    ∧ (∀ tvdbid : Val, tvdb_info c tvdbid = run_module c "tvdb_info" [("tvdbid", tvdbid)])
    ∧ (∀ tmdbid mtype : Val, tmdb_info c tmdbid mtype
      = run_module c "tmdb_info" [("tmdbid", tmdbid), ("mtype", mtype)])
    ∧ (∀ body form args : Val, messageParser c body form args
      = run_module c "message_parser" [("body", body), ("form", form), ("args", args)])
    ∧ (∀ body form args : Val, webhookParser c body form args
      = run_module c "webhook_parser" [("body", body), ("form", form), ("args", args)])
    ∧ (∀ meta : Val, search_medias c meta = run_module c "search_medias" [("meta", meta)])
    ∧ (∀ mediainfo sites keyword : Val, search_torrents c mediainfo sites keyword
      = run_module c "search_torrents"
          [("mediainfo", mediainfo), ("sites", sites), ("keyword", keyword)])
    ∧ (∀ sites : Val, refresh_torrents c sites = run_module c "refresh_torrents" [("sites", sites)])
    ∧ (∀ torrent_list season_episodes : Val, filter_torrents c torrent_list season_episodes
      = run_module c "filter_torrents"
          [("torrent_list", torrent_list), ("season_episodes", season_episodes)])
    ∧ (∀ torrent_path cookie episodes : Val, download c torrent_path cookie episodes
      = run_module c "download"
          [("torrent_path", torrent_path), ("cookie", cookie), ("episodes", episodes)])
    ∧ (∀ context torrent_path : Val, download_added c context torrent_path
      = run_module c "download_added" [("context", context), ("torrent_path", torrent_path)])
    ∧ (∀ status hashs : Val, list_torrents c status hashs
      = run_module c "list_torrents" [("status", status), ("hashs", hashs)])
    ∧ (∀ path mediainfo : Val, transfer c path mediainfo
      = run_module c "transfer" [("path", path), ("mediainfo", mediainfo)])
    ∧ (∀ hashs transinfo : Val, transfer_completed c hashs transinfo
      = run_module c "transfer_completed" [("hashs", hashs), ("transinfo", transinfo)])
    ∧ (∀ hashs : Val, remove_torrents c hashs = run_module c "remove_torrents" [("hashs", hashs)])
    ∧ (∀ mediainfo : Val, media_exists c mediainfo
      = run_module c "media_exists" [("mediainfo", mediainfo)])
    ∧ (∀ mediainfo file_path : Val, refresh_mediaserver c mediainfo file_path
      = run_module c "refresh_mediaserver" [("mediainfo", mediainfo), ("file_path", file_path)])
    ∧ (∀ title text image userid : Val, post_message c title text image userid
      = run_module c "post_message"
          [("title", title), ("text", text), ("image", image), ("userid", userid)])
    ∧ (∀ title items userid : Val, post_medias_message c title items userid
      = run_module c "post_medias_message"
          [("title", title), ("items", items), ("userid", userid)])
    ∧ (∀ title items mediainfo userid : Val, post_torrents_message c title items mediainfo userid
      = run_module c "post_torrents_message"
          [("title", title), ("mediainfo", mediainfo), ("items", items), ("userid", userid)])
    ∧ (∀ path mediainfo : Val, scrape_metadata c path mediainfo
      = run_module c "scrape_metadata" [("path", path), ("mediainfo", mediainfo)])
    ∧ (∀ commands : Val, register_commands c commands
      = run_module c "register_commands" [("commands", commands)])
    ∧ (∀ mtype sort tags start count : Val, douban_discover c mtype sort tags start count
      = run_module c "douban_discover"
          [("mtype", mtype), ("sort", sort), ("tags", tags), ("start", start), ("count", count)])
    ∧ (∀ mtype sort_by with_genres with_original_language page : Val,
        tmdb_discover c mtype sort_by with_genres with_original_language page
      = run_module c "tmdb_discover"
          [("mtype", mtype), ("sort_by", sort_by), ("with_genres", with_genres),
            ("with_original_language", with_original_language), ("page", page)])
    ∧ (∀ page count : Val, movie_top250 c page count
      = run_module c "movie_top250" [("page", page), ("count", count)]) :=
  ⟨fun _ _ => rfl, fun _ _ _ => rfl, fun _ => rfl, fun _ => rfl, fun _ => rfl,
    fun _ _ => rfl, fun _ _ _ => rfl, fun _ _ _ => rfl, fun _ => rfl,
    fun _ _ _ => rfl, fun _ => rfl, fun _ _ => rfl, fun _ _ _ => rfl,
    fun _ _ => rfl, fun _ _ => rfl, fun _ _ => rfl, fun _ _ => rfl,
    fun _ => rfl, fun _ => rfl, fun _ _ => rfl, fun _ _ _ _ => rfl,
    fun _ _ _ => rfl, fun _ _ _ _ => rfl, fun _ _ => rfl, fun _ => rfl,
    fun _ _ _ _ _ => rfl, fun _ _ _ _ _ => rfl, fun _ _ => rfl⟩
